import Mathlib

/-!
Shallow embedding of the partition-key resolution, document marshaling and
container/client operation layer of the cosmos-python-sdk-v5 repository
(src/container.rs, src/client.rs, src/utils.rs).

Host (Python) values and wire (serde_json) documents are modeled as mutually
inductive trees.  Double-precision floats never have their arithmetic
inspected by this layer, so a real payload is carried as an abstract integer
identifier; the value universe ranges over finite doubles (non-finite doubles
are rejected by the wire serializer and are outside the modeled payload
space).  Mappings have text keys, per the Document Payload data model of the
specification (a structured mapping of string keys to dynamically typed
values).
-/

namespace CosmosSDK

/-- Kinds of host-visible exceptions raised by the layer (pyo3 exception
classes used by the source: PyTypeError, PyValueError, PyNotImplementedError).
The specification names these TypeError-class, ValueError/ValidationError and
UnsupportedOperationError failures respectively. -/
inductive PyErrKind where
  | typeError
  | valueError
  | notImplementedError
deriving DecidableEq, Repr

/-- A raised host exception: kind plus message. -/
structure PyErr where
  kind : PyErrKind
  msg : String
deriving DecidableEq, Repr

mutual
/-- A host (Python) value, as far as this layer inspects it: None, bool, int,
float, str, list, dict with string keys.  `real` carries an abstract payload
identifying a finite double. -/
inductive PyValue where
  | none
  | bool (b : Bool)
  | int (n : Int)
  | real (r : Int)
  | str (s : String)
  | list (xs : PyList)
  | dict (fs : PyFields)
deriving DecidableEq, Repr

/-- A host list of values. -/
inductive PyList where
  | nil
  | cons (hd : PyValue) (tl : PyList)
deriving DecidableEq, Repr

/-- The entries of a host dict with string keys, in insertion order (a Python
dict has no duplicate keys). -/
inductive PyFields where
  | nil
  | cons (key : String) (val : PyValue) (tl : PyFields)
deriving DecidableEq, Repr
end

mutual
/-- A wire document: a serde_json::Value.  Numbers keep the integer/real
distinction the wire format preserves. -/
inductive Json where
  | null
  | bool (b : Bool)
  | int (n : Int)
  | real (r : Int)
  | str (s : String)
  | arr (xs : JsonList)
  | obj (fs : JsonFields)
deriving DecidableEq, Repr

/-- A wire array. -/
inductive JsonList where
  | nil
  | cons (hd : Json) (tl : JsonList)
deriving DecidableEq, Repr

/-- The members of a wire object, in emission order. -/
inductive JsonFields where
  | nil
  | cons (key : String) (val : Json) (tl : JsonFields)
deriving DecidableEq, Repr
end

/-- azure_data_cosmos::PartitionKey, restricted to the variants the source
constructs: from a String, an i64 or an f64. -/
inductive PartitionKey where
  | text (s : String)
  | int (n : Int)
  | real (r : Int)
deriving DecidableEq, Repr

/-- Smallest i64. -/
def i64Min : Int := -(2 ^ 63)

/-- Largest i64. -/
def i64Max : Int := 2 ^ 63 - 1

/-- Magnitude at which host int-to-double conversion overflows: integers of
absolute value at least 2^1024 - 2^970 round past the largest finite double
and raise OverflowError in the host. -/
def f64OverflowBound : Nat := 2 ^ 1024 - 2 ^ 970

/-- Semantics of `pk.extract::<String>(py)`: succeeds exactly on host text. -/
def extractString : PyValue → Option String
  | .str s => some s
  | _ => Option.none

/-- Semantics of `pk.extract::<i64>(py)`: succeeds on a host int within the
signed 64-bit range, and on a host bool (the host treats bool as an integer
subtype, so it converts as 1 or 0); fails on everything else. -/
def extractI64 : PyValue → Option Int
  | .int n => if i64Min ≤ n ∧ n ≤ i64Max then some n else Option.none
  | .bool b => some (if b then 1 else 0)
  | _ => Option.none

/-- Semantics of `pk.extract::<f64>(py)`: succeeds on a host float, on a host
int whose magnitude stays below the double overflow bound (the host converts
the integer to a double; the rounding itself is not tracked, the payload is
carried through as the abstract identifier), and on a host bool; fails on
everything else. -/
def extractF64 : PyValue → Option Int
  | .real r => some r
  | .int n => if n.natAbs < f64OverflowBound then some n else Option.none
  | .bool b => some (if b then 1 else 0)
  | _ => Option.none

/-- The fixed coercion-failure message raised by python_to_partition_key. -/
def pkTypeMsg : String := "Partition key must be string, int, or float"

/-- ContainerClient::python_to_partition_key (container.rs lines 330-342):
try String, else i64, else f64, in that order; any other input raises
PyTypeError with the fixed message. -/
def python_to_partition_key (pk : PyValue) : Except PyErr PartitionKey :=
  match extractString pk with
  | some s => .ok (.text s)
  | Option.none =>
    match extractI64 pk with
    | some i => .ok (.int i)
    | Option.none =>
      match extractF64 pk with
      | some f => .ok (.real f)
      | Option.none => .error ⟨.typeError, pkTypeMsg⟩

/-- Host dict lookup (PyDict::get_item by string key). -/
def PyFields.get : PyFields → String → Option PyValue
  | .nil, _ => Option.none
  | .cons k v tl, key => if k = key then some v else tl.get key

/-- The partition_key entry of the optional kwargs dict, when present
(`if let Ok(Some(pk)) = kw.get_item("partition_key")`). -/
def kwargsPartitionKey (kwargs : Option PyFields) : Option PyValue :=
  match kwargs with
  | some kw => kw.get "partition_key"
  | Option.none => Option.none

/-- The fixed ordered list of conventional partition-key field names scanned
in the body (container.rs line 354). -/
def common_pk_fields : List String := ["id", "category", "partitionKey", "pk", "type", "tenantId"]

/-- Scan of the body for the first present field of the given name list
(the for-loop of container.rs lines 355-359). -/
def firstCommonField (body : PyFields) : List String → Option PyValue
  | [] => Option.none
  | f :: rest =>
    match body.get f with
    | some v => some v
    | Option.none => firstCommonField body rest

/-- The resolution-failure message for structured bodies. -/
def pkNotFoundMsg : String := "Partition key not found in body or kwargs"

/-- ContainerClient::extract_partition_key (container.rs lines 344-364):
an explicit partition_key kwarg wins; otherwise the first conventional field
present in the body is coerced; otherwise PyValueError. -/
def extract_partition_key (body : PyFields) (kwargs : Option PyFields) :
    Except PyErr PartitionKey :=
  match kwargsPartitionKey kwargs with
  | some pk => python_to_partition_key pk
  | Option.none =>
    match firstCommonField body common_pk_fields with
    | some v => python_to_partition_key v
    | Option.none => .error ⟨.valueError, pkNotFoundMsg⟩

/-- The resolution-failure message for raw-text bodies. -/
def pkKwargsMsg : String := "Partition key must be provided in kwargs when body is a JSON string"

/-- ContainerClient::extract_partition_key_from_kwargs (container.rs lines
366-378): only an explicit partition_key kwarg can supply the key; otherwise
PyValueError naming the body and the kwargs. -/
def extract_partition_key_from_kwargs (kwargs : Option PyFields) :
    Except PyErr PartitionKey :=
  match kwargsPartitionKey kwargs with
  | some pk => python_to_partition_key pk
  | Option.none => .error ⟨.valueError, pkKwargsMsg⟩

mutual
/-- Structural host-to-wire rendering of one value: the shape-preserving map
that keeps every integer as an integer.  This is the wire document the
operations layer submits (the operation-level claims depend only on marshal
success and on the partition key, never on the numeric content of the wire
document).  It agrees with the full host serializer py_dict_to_json below
exactly on wire-exact values (pyValueWireExact); the degradation of integers
outside the signed/unsigned 64-bit range that the wire parser performs is
modeled there, in pyValueMarshal. -/
def pyValueToJson : PyValue → Json
  | .none => .null
  | .bool b => .bool b
  | .int n => .int n
  | .real r => .real r
  | .str s => .str s
  | .list xs => .arr (pyListToJson xs)
  | .dict fs => .obj (pyFieldsToJson fs)

/-- Host-to-wire conversion of a list. -/
def pyListToJson : PyList → JsonList
  | .nil => .nil
  | .cons hd tl => .cons (pyValueToJson hd) (pyListToJson tl)

/-- Host-to-wire conversion of dict entries. -/
def pyFieldsToJson : PyFields → JsonFields
  | .nil => .nil
  | .cons k v tl => .cons k (pyValueToJson v) (pyFieldsToJson tl)
end

mutual
/-- Wire-to-host conversion of one document.  The source realizes this as
serde_json::to_string composed with json.loads (utils.rs json_to_py_dict and
the read/query response paths); on the modeled universe that composite is the
induced structure-preserving tree map. -/
def jsonToPyValue : Json → PyValue
  | .null => .none
  | .bool b => .bool b
  | .int n => .int n
  | .real r => .real r
  | .str s => .str s
  | .arr xs => .list (jsonListToPy xs)
  | .obj fs => .dict (jsonFieldsToPy fs)

/-- Wire-to-host conversion of an array. -/
def jsonListToPy : JsonList → PyList
  | .nil => .nil
  | .cons hd tl => .cons (jsonToPyValue hd) (jsonListToPy tl)

/-- Wire-to-host conversion of object members. -/
def jsonFieldsToPy : JsonFields → PyFields
  | .nil => .nil
  | .cons k v tl => .cons k (jsonToPyValue v) (jsonFieldsToPy tl)
end

/-- Largest u64: the upper end of the exact integer range of the wire
parser (a non-negative integer literal parses as a u64 when it fits, a
negative one as an i64 when it fits). -/
def u64Max : Int := 2 ^ 64 - 1

/-- The marshal-failure message of py_dict_to_json: the source wraps the
wire-parser error as PyValueError with an Invalid JSON prefix, and the wire
parser rejects an integer literal that overflows a double as out of range. -/
def invalidJsonMsg : String := "Invalid JSON: number out of range"

mutual
/-- Wire-exactness of a host value: every integer it contains lies in the
exact integer range of the wire parser, between i64Min and u64Max, so the
serializer keeps it as an integer. -/
def pyValueWireExact : PyValue → Bool
  | .int n => decide (i64Min ≤ n ∧ n ≤ u64Max)
  | .list xs => pyListWireExact xs
  | .dict fs => pyFieldsWireExact fs
  | _ => true

/-- Wire-exactness of a host list. -/
def pyListWireExact : PyList → Bool
  | .nil => true
  | .cons hd tl => pyValueWireExact hd && pyListWireExact tl

/-- Wire-exactness of host dict entries. -/
def pyFieldsWireExact : PyFields → Bool
  | .nil => true
  | .cons _ v tl => pyValueWireExact v && pyFieldsWireExact tl
end

mutual
/-- Host-to-wire marshaling of one value with the numeric semantics of the
composite json.dumps then serde_json::from_str (the forward direction of
utils.rs): an integer within the signed/unsigned 64-bit range parses back
exactly; an integer beyond that range re-parses as a double when it stays
below the double overflow bound (the degraded payload is carried through as
the abstract identifier, the rounding itself untracked — only the loss of
intness matters to the claims); an integer at or past the overflow bound
makes the wire parse fail; doubles, text, booleans, null and the containers
convert structurally. -/
def pyValueMarshal : PyValue → Except PyErr Json
  | .none => .ok .null
  | .bool b => .ok (.bool b)
  | .int n =>
    if i64Min ≤ n ∧ n ≤ u64Max then .ok (.int n)
    else if n.natAbs < f64OverflowBound then .ok (.real n)
    else .error ⟨.valueError, invalidJsonMsg⟩
  | .real r => .ok (.real r)
  | .str s => .ok (.str s)
  | .list xs => (pyListMarshal xs).map Json.arr
  | .dict fs => (pyFieldsMarshal fs).map Json.obj

/-- Host-to-wire marshaling of a list. -/
def pyListMarshal : PyList → Except PyErr JsonList
  | .nil => .ok .nil
  | .cons hd tl => do
    let j ← pyValueMarshal hd
    let js ← pyListMarshal tl
    pure (.cons j js)

/-- Host-to-wire marshaling of dict entries. -/
def pyFieldsMarshal : PyFields → Except PyErr JsonFields
  | .nil => .ok .nil
  | .cons k v tl => do
    let j ← pyValueMarshal v
    let js ← pyFieldsMarshal tl
    pure (.cons k j js)
end

/-- utils.rs py_dict_to_json (lines 7-12): json.dumps on the host dict
composed with serde_json::from_str on the emitted text — one marshal of the
whole mapping with the integer-range semantics of pyValueMarshal; a parse
failure is wrapped as the Invalid JSON PyValueError. -/
def py_dict_to_json (d : PyFields) : Except PyErr Json :=
  (pyFieldsMarshal d).map Json.obj

/-- utils.rs json_to_py_dict (lines 15-21): render a wire document back into
a host value. -/
def json_to_py_dict (j : Json) : PyValue :=
  jsonToPyValue j

/-- The body argument of a write operation: a structured mapping (a host dict,
for which `body.downcast::<PyDict>()` succeeds) or raw serialized text (the
Document Payload data model admits exactly these two shapes). -/
inductive PyBody where
  | dict (fs : PyFields)
  | text (s : String)
deriving DecidableEq, Repr

/-- Modelled from the spec: `py_object_to_json` (crate::utils) is called by
every container write operation but its definition is not among the provided
sources.  Per the Document Marshaler contract, structured input is serialized
to the wire document and raw text is parsed once to obtain the wire document,
any parse failure yielding a marshal error.  The text parse itself is an
external serialization capability and is passed in as `serdeParse`.  A dict
body is rendered with the structural serialization: the operation-level
claims depend only on marshal success and on the partition key, never on the
numeric content of the submitted wire document, so the integer degradation
of the host serializer (see pyValueMarshal) is not tracked on this path. -/
def py_object_to_json (serdeParse : String → Except PyErr Json) :
    PyBody → Except PyErr Json
  | .dict d => .ok (Json.obj (pyFieldsToJson d))
  | .text s => serdeParse s

/-- `.extract::<&PyDict>()` on a host value: succeeds exactly on a dict,
anything else raises a host TypeError. -/
def pyExtractDict : PyValue → Except PyErr PyFields
  | .dict d => .ok d
  | _ => .error ⟨.typeError, "object cannot be converted to dict"⟩

/-- The request a write operation submits to the backend container client:
the resolved partition key and the wire document. -/
structure WriteRequest where
  pk : PartitionKey
  item : Json
deriving DecidableEq, Repr

/-- The request assembled by ContainerClient::create_item before the backend
call (container.rs lines 52-64): marshal the body, then resolve the partition
key from the body dict and kwargs, or from kwargs alone when the body is raw
text. -/
def create_item_request (serdeParse : String → Except PyErr Json)
    (body : PyBody) (kwargs : Option PyFields) : Except PyErr WriteRequest := do
  let item_value ← py_object_to_json serdeParse body
  let partition_key ←
    match body with
    | .dict d => extract_partition_key d kwargs
    | .text _ => extract_partition_key_from_kwargs kwargs
  pure ⟨partition_key, item_value⟩

/-- The request assembled by ContainerClient::upsert_item before the backend
call (container.rs lines 126-134); the source duplicates the create path
verbatim. -/
def upsert_item_request (serdeParse : String → Except PyErr Json)
    (body : PyBody) (kwargs : Option PyFields) : Except PyErr WriteRequest := do
  let item_value ← py_object_to_json serdeParse body
  let partition_key ←
    match body with
    | .dict d => extract_partition_key d kwargs
    | .text _ => extract_partition_key_from_kwargs kwargs
  pure ⟨partition_key, item_value⟩

/-- The request assembled by ContainerClient::replace_item before the backend
call (container.rs lines 165-173); the source duplicates the create path
verbatim, the target id travelling alongside. -/
def replace_item_request (serdeParse : String → Except PyErr Json)
    (body : PyBody) (kwargs : Option PyFields) : Except PyErr WriteRequest := do
  let item_value ← py_object_to_json serdeParse body
  let partition_key ←
    match body with
    | .dict d => extract_partition_key d kwargs
    | .text _ => extract_partition_key_from_kwargs kwargs
  pure ⟨partition_key, item_value⟩

/-- The value a successful write returns to the caller (container.rs lines
70-76, 143-148, 183-188, identical in all three operations): a dict body is
handed back itself; a text body is re-parsed with json.loads (the external
parse capability `loads`) and the parse result extracted as a dict. -/
def write_return (loads : String → Except PyErr PyValue) :
    PyBody → Except PyErr PyFields
  | .dict d => .ok d
  | .text s => do
    let v ← loads s
    pyExtractDict v

/-- ContainerClient::create_item (container.rs lines 42-77).  The backend
container client is an external capability mapping the submitted request to
the echoed response document or a mapped error; its response is bound to
`_result` and discarded by the source. -/
def create_item (serdeParse : String → Except PyErr Json)
    (loads : String → Except PyErr PyValue)
    (backend : WriteRequest → Except PyErr Json)
    (body : PyBody) (kwargs : Option PyFields) : Except PyErr PyFields := do
  let req ← create_item_request serdeParse body kwargs
  let _result ← backend req
  write_return loads body

/-- ContainerClient::upsert_item (container.rs lines 116-149). -/
def upsert_item (serdeParse : String → Except PyErr Json)
    (loads : String → Except PyErr PyValue)
    (backend : WriteRequest → Except PyErr Json)
    (body : PyBody) (kwargs : Option PyFields) : Except PyErr PyFields := do
  let req ← upsert_item_request serdeParse body kwargs
  let _result ← backend req
  write_return loads body

/-- ContainerClient::replace_item (container.rs lines 154-189); the backend
additionally receives the id of the item being replaced. -/
def replace_item (item : String) (serdeParse : String → Except PyErr Json)
    (loads : String → Except PyErr PyValue)
    (backend : String → WriteRequest → Except PyErr Json)
    (body : PyBody) (kwargs : Option PyFields) : Except PyErr PyFields := do
  let req ← replace_item_request serdeParse body kwargs
  let _result ← backend item req
  write_return loads body

/-- Draining of a backend paged stream (the while-let loops of container.rs
lines 253-260 and client.rs lines 114-119): collect the emitted items in
order, returning the first error and discarding what was collected. -/
def drainStream {ε α : Type} : List (Except ε α) → Except ε (List α)
  | [] => .ok []
  | .ok x :: rest =>
    match drainStream rest with
    | .ok xs => .ok (x :: xs)
    | .error e => .error e
  | .error e :: _ => .error e

/-- The mandatory-partition-key message of query_items. -/
def queryPkRequiredMsg : String :=
  "partition_key is required for queries. For cross-partition queries, this will be supported in a future update."

/-- ContainerClient::query_items (container.rs lines 218-276): an optional
partition_key kwarg is coerced up front (a coercion failure propagates); a
missing key raises PyValueError with the future-update message before the
backend query capability is invoked; otherwise the stream is created, drained,
and every emitted document is rendered to a host dict. -/
def query_items
    (queryBackend : String → PartitionKey → Except PyErr (List (Except PyErr Json)))
    (query : String) (kwargs : Option PyFields) : Except PyErr (List PyFields) := do
  let partition_key_opt ←
    match kwargsPartitionKey kwargs with
    | some pk => (python_to_partition_key pk).map some
    | Option.none => pure Option.none
  let pk ←
    match partition_key_opt with
    | some pk => pure pk
    | Option.none => Except.error ⟨.valueError, queryPkRequiredMsg⟩
  let stream ← queryBackend query pk
  let items ← drainStream stream
  items.mapM (fun j => pyExtractDict (json_to_py_dict j))

/-- The message raised by patch_item. -/
def patchNotImplementedMsg : String := "patch_item is not yet implemented"

/-- ContainerClient::patch_item (container.rs lines 280-292): always raises
PyNotImplementedError, whatever the arguments. -/
def patch_item (item : String) (partition_key : PyValue)
    (patch_operations : List PyValue) (kwargs : Option PyFields) :
    Except PyErr PyFields :=
  .error ⟨.notImplementedError, patchNotImplementedMsg⟩

/-- CosmosClient::list_databases (client.rs lines 102-132): issue the fixed
query to the backend database-listing capability, drain the stream, and for
each emitted backend item build a fresh one-entry dict whose single key "id"
holds the Debug rendering (`format!` with the Debug formatter) of the whole
item.  The backend item type and its Debug rendering are external, so both
are parameters. -/
def list_databases {α : Type} (debugFmt : α → String)
    (queryDatabases : String → Except PyErr (List (Except PyErr α)))
    (kwargs : Option PyFields) : Except PyErr (List PyFields) := do
  let stream ← queryDatabases "SELECT * FROM databases"
  let dbs ← drainStream stream
  pure (dbs.map fun db => PyFields.cons "id" (PyValue.str (debugFmt db)) PyFields.nil)

/-- The distinct `static TOKIO_RUNTIME: Lazy<Runtime>` items of the source:
client.rs lines 10-15 and container.rs lines 13-18 each declare their own
lazily-initialized runtime cell. -/
inductive RuntimeCell where
  | clientRuntime
  | containerRuntime
deriving DecidableEq, Repr

/-- The public operations that submit asynchronous work through block_on. -/
inductive PublicOp where
  | createDatabase
  | deleteDatabase
  | listDatabases
  | createItem
  | readItem
  | upsertItem
  | replaceItem
  | deleteItem
  | queryItems
  | deleteContainer
deriving DecidableEq, Repr

/-- The runtime static whose block_on each public operation calls: the one of
the module the operation is defined in (CosmosClient operations live in
client.rs, ContainerClient operations in container.rs). -/
def blockOnRuntime : PublicOp → RuntimeCell
  | .createDatabase => .clientRuntime
  | .deleteDatabase => .clientRuntime
  | .listDatabases => .clientRuntime
  | _ => .containerRuntime

/-- The observable state of a once_cell::sync::Lazy cell: nothing yet, or the
cached constructed value. -/
structure LazyCell (α : Type) where
  cached : Option α

/-- Dereferencing a Lazy cell: the first dereference runs the initializer and
caches its result; every later dereference returns the cached value with the
cell unchanged (once_cell guarantees the initializer runs at most once, also
under concurrent first use). -/
def LazyCell.force {α : Type} (c : LazyCell α) (init : Unit → α) :
    LazyCell α × α :=
  match c.cached with
  | some v => (c, v)
  | Option.none => (⟨some (init ())⟩, init ())

/-- The body of end-to-end scenario 1 of the specification. -/
def scenarioBody : PyFields :=
  .cons "id" (.str "a1") (.cons "category" (.str "fruit") (.cons "qty" (.int 3) .nil))

/-- The response a write operation owes the caller, per the shape-fidelity
contract: a dict body is returned itself, a text body re-parses (via the host
parse capability) to exactly the returned dict. -/
def derivedFromBody (loads : String → Except PyErr PyValue)
    (body : PyBody) (d : PyFields) : Prop :=
  (∀ d0, body = .dict d0 → d = d0) ∧
  (∀ s, body = .text s → loads s = .ok (.dict d))

/-! Helper lemmas. -/

/-- The body scan returns the field at position i of the name list when that
field is present in the body and every earlier one is absent. -/
theorem firstCommonField_of_first (body : PyFields) :
    ∀ (fields : List String) (i : Nat) (h : i < fields.length) (v : PyValue),
      body.get (fields.get ⟨i, h⟩) = some v →
      (∀ j, (hj : j < i) → body.get (fields.get ⟨j, Nat.lt_trans hj h⟩) = Option.none) →
      firstCommonField body fields = some v := by
  intro fields
  induction fields with
  | nil => intro i h; exact absurd h (by simp)
  | cons f rest ih =>
    intro i h v hv hprev
    cases i with
    | zero =>
      simp only [List.get] at hv
      simp [firstCommonField, hv]
    | succ i =>
      have h0 : body.get f = Option.none := by
        have := hprev 0 (Nat.succ_pos i)
        simpa using this
      have hv2 : body.get (rest.get ⟨i, Nat.lt_of_succ_lt_succ h⟩) = some v := by
        simpa using hv
      have hprev2 : ∀ j, (hj : j < i) →
          body.get (rest.get ⟨j, Nat.lt_trans hj (Nat.lt_of_succ_lt_succ h)⟩) = Option.none := by
        intro j hj
        have := hprev (j + 1) (Nat.succ_lt_succ hj)
        simpa using this
      simpa [firstCommonField, h0] using ih i (Nat.lt_of_succ_lt_succ h) v hv2 hprev2

/-- The body scan fails when none of the listed fields is present. -/
theorem firstCommonField_of_none (body : PyFields) :
    ∀ (fields : List String), (∀ f ∈ fields, body.get f = Option.none) →
      firstCommonField body fields = Option.none := by
  intro fields
  induction fields with
  | nil => intro; rfl
  | cons f rest ih =>
    intro hall
    have h0 : body.get f = Option.none := hall f (by simp)
    simpa [firstCommonField, h0] using ih (fun g hg => hall g (by simp [hg]))

/-- Powers of two below the 970th stay under the double overflow bound. -/
theorem pow_lt_f64OverflowBound {k : Nat} (hk : k < 970) :
    (2 : Nat) ^ k < f64OverflowBound := by
  have ha : (2 : Nat) ^ k < 2 ^ 970 := Nat.pow_lt_pow_right one_lt_two hk
  have hb : (2 : Nat) ^ 971 = 2 ^ 970 * 2 := by
    rw [show (971 : Nat) = 970 + 1 from rfl, pow_succ]
  have hc : (2 : Nat) ^ 971 ≤ 2 ^ 1024 := Nat.pow_le_pow_right (by norm_num) (by norm_num)
  simp only [f64OverflowBound]
  omega

/-- The 1024th power of two reaches the double overflow bound. -/
theorem f64OverflowBound_le_pow1024 : f64OverflowBound ≤ 2 ^ 1024 := by
  simp only [f64OverflowBound]
  omega

/-- Draining a stream whose every element is a success yields exactly the
emitted items in order. -/
theorem drainStream_map_ok {ε α : Type} (xs : List α) :
    @drainStream ε α (xs.map Except.ok) = .ok xs := by
  induction xs with
  | nil => rfl
  | cons x rest ih => simp [drainStream, ih]

/-- Chaining through two Except binds whose tail ignores both results:
success of the chain forces success of the tail. -/
theorem except_seq_ok {ε α β γ : Type} (x : Except ε α) (f : α → Except ε β)
    (g : Except ε γ) (d : γ)
    (h : (do let a ← x; let _ ← f a; g) = .ok d) : g = .ok d := by
  cases x with
  | error e => simp [Bind.bind, Except.bind] at h
  | ok a =>
    simp only [Bind.bind, Except.bind] at h
    cases hf : f a with
    | error e => rw [hf] at h; exact Except.noConfusion h
    | ok b => rw [hf] at h; exact h

/-- A successful write return value is derived from the request body alone:
a dict body is returned itself, a text body re-parses to the returned dict. -/
theorem write_return_derived (loads : String → Except PyErr PyValue)
    (body : PyBody) (d : PyFields)
    (h : write_return loads body = .ok d) : derivedFromBody loads body d := by
  cases body with
  | dict d0 =>
    simp only [write_return, Except.ok.injEq] at h
    subst h
    refine ⟨fun d1 hd => ?_, fun s hs => ?_⟩
    · cases hd; rfl
    · cases hs
  | text s =>
    simp only [write_return, Bind.bind, Except.bind] at h
    cases hl : loads s with
    | error e => rw [hl] at h; simp at h
    | ok v =>
      rw [hl] at h
      cases v with
      | dict d1 =>
        simp only [pyExtractDict, Except.ok.injEq] at h
        subst h
        refine ⟨fun d2 hd => ?_, fun s2 hs => ?_⟩
        · cases hd
        · cases hs; exact hl
      | none => simp [pyExtractDict] at h
      | bool b => simp [pyExtractDict] at h
      | int n => simp [pyExtractDict] at h
      | real r => simp [pyExtractDict] at h
      | str s2 => simp [pyExtractDict] at h
      | list xs => simp [pyExtractDict] at h

mutual
/-- Wire-to-host inverts host-to-wire marshaling on a wire-exact value. -/
theorem marshalRoundtripValue : ∀ v : PyValue, pyValueWireExact v = true →
    (pyValueMarshal v).map jsonToPyValue = .ok v
  | .none, _ => rfl
  | .bool _, _ => rfl
  | .int n, h => by
    simp only [pyValueWireExact, decide_eq_true_eq] at h
    simp [pyValueMarshal, h.1, h.2, Except.map, jsonToPyValue]
  | .real _, _ => rfl
  | .str _, _ => rfl
  | .list xs, h => by
    have ih := marshalRoundtripList xs (by simpa [pyValueWireExact] using h)
    cases hm : pyListMarshal xs with
    | error e => rw [hm] at ih; exact absurd ih (by simp [Except.map])
    | ok l =>
      rw [hm] at ih
      simp only [Except.map, Except.ok.injEq] at ih
      simp [pyValueMarshal, hm, Except.map, jsonToPyValue, ih]
  | .dict fs, h => by
    have ih := marshalRoundtripFields fs (by simpa [pyValueWireExact] using h)
    cases hm : pyFieldsMarshal fs with
    | error e => rw [hm] at ih; exact absurd ih (by simp [Except.map])
    | ok w =>
      rw [hm] at ih
      simp only [Except.map, Except.ok.injEq] at ih
      simp [pyValueMarshal, hm, Except.map, jsonToPyValue, ih]

/-- Wire-to-host inverts host-to-wire marshaling on a wire-exact list. -/
theorem marshalRoundtripList : ∀ xs : PyList, pyListWireExact xs = true →
    (pyListMarshal xs).map jsonListToPy = .ok xs
  | .nil, _ => rfl
  | .cons hd tl, h => by
    have hsplit : pyValueWireExact hd = true ∧ pyListWireExact tl = true := by
      simpa [pyListWireExact, Bool.and_eq_true] using h
    have ih1 := marshalRoundtripValue hd hsplit.1
    have ih2 := marshalRoundtripList tl hsplit.2
    cases hm1 : pyValueMarshal hd with
    | error e => rw [hm1] at ih1; exact absurd ih1 (by simp [Except.map])
    | ok j =>
      rw [hm1] at ih1
      simp only [Except.map, Except.ok.injEq] at ih1
      cases hm2 : pyListMarshal tl with
      | error e => rw [hm2] at ih2; exact absurd ih2 (by simp [Except.map])
      | ok js =>
        rw [hm2] at ih2
        simp only [Except.map, Except.ok.injEq] at ih2
        simp [pyListMarshal, hm1, hm2, Bind.bind, Except.bind, Pure.pure,
          Except.pure, Except.map, jsonListToPy, ih1, ih2]

/-- Wire-to-host inverts host-to-wire marshaling on wire-exact dict
entries. -/
theorem marshalRoundtripFields : ∀ fs : PyFields, pyFieldsWireExact fs = true →
    (pyFieldsMarshal fs).map jsonFieldsToPy = .ok fs
  | .nil, _ => rfl
  | .cons k v tl, h => by
    have hsplit : pyValueWireExact v = true ∧ pyFieldsWireExact tl = true := by
      simpa [pyFieldsWireExact, Bool.and_eq_true] using h
    have ih1 := marshalRoundtripValue v hsplit.1
    have ih2 := marshalRoundtripFields tl hsplit.2
    cases hm1 : pyValueMarshal v with
    | error e => rw [hm1] at ih1; exact absurd ih1 (by simp [Except.map])
    | ok j =>
      rw [hm1] at ih1
      simp only [Except.map, Except.ok.injEq] at ih1
      cases hm2 : pyFieldsMarshal tl with
      | error e => rw [hm2] at ih2; exact absurd ih2 (by simp [Except.map])
      | ok js =>
        rw [hm2] at ih2
        simp only [Except.map, Except.ok.injEq] at ih2
        simp [pyFieldsMarshal, hm1, hm2, Bind.bind, Except.bind, Pure.pure,
          Except.pure, Except.map, jsonFieldsToPy, ih1, ih2]
end

/-! Claim theorems. -/

/-- Claim C1: for every create/upsert/replace call with a structured body,
partition-key resolution follows the stated precedence: the three operations
resolve through extract_partition_key; an explicit partition_key kwarg always
wins; otherwise the value of the first field present among id, category,
partitionKey, pk, type, tenantId, in that exact order, is used even when
several are present; when none is present resolution fails with the
not-found value error. -/
theorem c1_resolution_precedence :
    (∀ (serdeParse : String → Except PyErr Json) (d : PyFields) (kwargs : Option PyFields),
      (create_item_request serdeParse (.dict d) kwargs).map WriteRequest.pk
          = extract_partition_key d kwargs
      ∧ (upsert_item_request serdeParse (.dict d) kwargs).map WriteRequest.pk
          = extract_partition_key d kwargs
      ∧ (replace_item_request serdeParse (.dict d) kwargs).map WriteRequest.pk
          = extract_partition_key d kwargs)
    ∧ (∀ (body : PyFields) (kwargs : Option PyFields) (pk : PyValue),
      kwargsPartitionKey kwargs = some pk →
      extract_partition_key body kwargs = python_to_partition_key pk)
    ∧ (∀ (body : PyFields) (kwargs : Option PyFields) (i : Nat)
        (h : i < common_pk_fields.length) (v : PyValue),
      kwargsPartitionKey kwargs = Option.none →
      body.get (common_pk_fields.get ⟨i, h⟩) = some v →
      (∀ j, (hj : j < i) →
        body.get (common_pk_fields.get ⟨j, Nat.lt_trans hj h⟩) = Option.none) →
      extract_partition_key body kwargs = python_to_partition_key v)
    ∧ (∀ (body : PyFields) (kwargs : Option PyFields),
      kwargsPartitionKey kwargs = Option.none →
      (∀ f ∈ common_pk_fields, body.get f = Option.none) →
      extract_partition_key body kwargs = .error ⟨.valueError, pkNotFoundMsg⟩) := by
  refine ⟨?_, ?_, ?_, ?_⟩
  · intro serdeParse d kwargs
    refine ⟨?_, ?_, ?_⟩ <;>
      cases h : extract_partition_key d kwargs <;>
        simp [create_item_request, upsert_item_request, replace_item_request,
          py_object_to_json, Bind.bind, Except.bind, Pure.pure, Except.pure,
          Except.map, h]
  · intro body kwargs pk hkw
    simp [extract_partition_key, hkw]
  · intro body kwargs i h v hkw hget hprev
    rw [extract_partition_key, hkw,
      firstCommonField_of_first body common_pk_fields i h v hget hprev]
  · intro body kwargs hkw hall
    rw [extract_partition_key, hkw, firstCommonField_of_none body common_pk_fields hall]

/-- Witness for C1: the explicit kwarg wins on an empty body; the category
field is used when id is absent; an empty body with no kwargs fails. -/
theorem c1_resolution_precedence_witness :
    extract_partition_key PyFields.nil
        (some (PyFields.cons "partition_key" (PyValue.str "x") PyFields.nil))
      = python_to_partition_key (PyValue.str "x")
    ∧ extract_partition_key (PyFields.cons "category" (PyValue.str "fruit") PyFields.nil)
        Option.none
      = python_to_partition_key (PyValue.str "fruit")
    ∧ extract_partition_key PyFields.nil Option.none = .error ⟨.valueError, pkNotFoundMsg⟩ :=
  ⟨c1_resolution_precedence.2.1 _ _ _ rfl,
   c1_resolution_precedence.2.2.1 _ _ 1 (by decide) _ rfl rfl
     (by intro j hj; interval_cases j; rfl),
   c1_resolution_precedence.2.2.2 _ _ rfl (by decide)⟩

/-- Counterexample to claim C2: for the scenario body holding both an id and
a category field, resolution picks the id value a1, not the category value
fruit, because id comes first in the precedence list. -/
theorem c2_counterexample :
    extract_partition_key scenarioBody Option.none = .ok (.text "a1")
    ∧ (create_item_request (fun _ => .ok Json.null) (.dict scenarioBody) Option.none).map
        WriteRequest.pk = .ok (.text "a1")
    ∧ PartitionKey.text "a1" ≠ PartitionKey.text "fruit" :=
  ⟨rfl, rfl, by decide⟩

/-- Claim C2 as amended: creating the scenario body with no override stores
the item under partition key a1 (the value of the id field, which precedes
category in the precedence order) and returns the body mapping itself. -/
theorem c2_amended_resolution :
    ∀ (serdeParse : String → Except PyErr Json) (loads : String → Except PyErr PyValue)
      (j : Json),
      (create_item_request serdeParse (.dict scenarioBody) Option.none).map WriteRequest.pk
          = .ok (.text "a1")
      ∧ create_item serdeParse loads (fun _ => .ok j) (.dict scenarioBody) Option.none
          = .ok scenarioBody := by
  intro serdeParse loads j
  exact ⟨rfl, rfl⟩

/-- Claim C3: every create/upsert/replace return value is derived from the
request body alone, never from the backend response: a successful call on a
dict body returns that very mapping, a successful call on a text body returns
the re-parse of the original text; and swapping the backend response document
leaves the result unchanged. -/
theorem c3_shape_fidelity :
    (∀ (serdeParse : String → Except PyErr Json) (loads : String → Except PyErr PyValue)
      (backend : WriteRequest → Except PyErr Json) (body : PyBody)
      (kwargs : Option PyFields) (d : PyFields),
      create_item serdeParse loads backend body kwargs = .ok d →
      derivedFromBody loads body d)
    ∧ (∀ (serdeParse : String → Except PyErr Json) (loads : String → Except PyErr PyValue)
      (backend : WriteRequest → Except PyErr Json) (body : PyBody)
      (kwargs : Option PyFields) (d : PyFields),
      upsert_item serdeParse loads backend body kwargs = .ok d →
      derivedFromBody loads body d)
    ∧ (∀ (item : String) (serdeParse : String → Except PyErr Json)
      (loads : String → Except PyErr PyValue)
      (backend : String → WriteRequest → Except PyErr Json) (body : PyBody)
      (kwargs : Option PyFields) (d : PyFields),
      replace_item item serdeParse loads backend body kwargs = .ok d →
      derivedFromBody loads body d)
    ∧ (∀ (serdeParse : String → Except PyErr Json) (loads : String → Except PyErr PyValue)
      (j1 j2 : Json) (body : PyBody) (kwargs : Option PyFields),
      create_item serdeParse loads (fun _ => .ok j1) body kwargs
        = create_item serdeParse loads (fun _ => .ok j2) body kwargs
      ∧ upsert_item serdeParse loads (fun _ => .ok j1) body kwargs
        = upsert_item serdeParse loads (fun _ => .ok j2) body kwargs)
    ∧ (∀ (item : String) (serdeParse : String → Except PyErr Json)
      (loads : String → Except PyErr PyValue) (j1 j2 : Json) (body : PyBody)
      (kwargs : Option PyFields),
      replace_item item serdeParse loads (fun _ _ => .ok j1) body kwargs
        = replace_item item serdeParse loads (fun _ _ => .ok j2) body kwargs) := by
  refine ⟨?_, ?_, ?_, ?_, ?_⟩
  · intro serdeParse loads backend body kwargs d hok
    exact write_return_derived loads body d
      (except_seq_ok (create_item_request serdeParse body kwargs) backend _ d hok)
  · intro serdeParse loads backend body kwargs d hok
    exact write_return_derived loads body d
      (except_seq_ok (upsert_item_request serdeParse body kwargs) backend _ d hok)
  · intro item serdeParse loads backend body kwargs d hok
    exact write_return_derived loads body d
      (except_seq_ok (replace_item_request serdeParse body kwargs) (backend item) _ d hok)
  · intro serdeParse loads j1 j2 body kwargs
    constructor <;>
      cases hreq : create_item_request serdeParse body kwargs <;>
        cases hreq2 : upsert_item_request serdeParse body kwargs <;>
          simp [create_item, upsert_item, hreq, hreq2, Bind.bind, Except.bind]
  · intro item serdeParse loads j1 j2 body kwargs
    cases hreq : replace_item_request serdeParse body kwargs <;>
      simp [replace_item, hreq, Bind.bind, Except.bind]

/-- Witness for C3: a successful create on a dict body yields that body, and
a successful create on a text body yields the re-parse of the text. -/
theorem c3_shape_fidelity_witness :
    derivedFromBody (fun _ => .ok (.dict PyFields.nil)) (PyBody.dict scenarioBody) scenarioBody
    ∧ derivedFromBody (fun _ => .ok (.dict PyFields.nil)) (PyBody.text "raw") PyFields.nil :=
  ⟨c3_shape_fidelity.1 (fun _ => .ok Json.null) (fun _ => .ok (.dict PyFields.nil))
      (fun _ => .ok Json.null) (.dict scenarioBody) Option.none scenarioBody rfl,
   c3_shape_fidelity.1 (fun _ => .ok Json.null) (fun _ => .ok (.dict PyFields.nil))
      (fun _ => .ok Json.null) (.text "raw")
      (some (PyFields.cons "partition_key" (PyValue.str "p") PyFields.nil))
      PyFields.nil rfl⟩

/-- Claim C4: a create/upsert/replace call whose body is raw text that the
marshaler parses, with no partition_key kwarg, fails with the value error
naming the body and the kwargs as the missing sources, a kind distinct from
the type error; no default partition key is picked. -/
theorem c4_raw_text_requires_kwargs :
    ∀ (serdeParse : String → Except PyErr Json) (loads : String → Except PyErr PyValue)
      (backend : WriteRequest → Except PyErr Json)
      (rbackend : String → WriteRequest → Except PyErr Json)
      (item s : String) (kwargs : Option PyFields) (j : Json),
      kwargsPartitionKey kwargs = Option.none →
      serdeParse s = .ok j →
      create_item serdeParse loads backend (.text s) kwargs
          = .error ⟨.valueError, pkKwargsMsg⟩
      ∧ upsert_item serdeParse loads backend (.text s) kwargs
          = .error ⟨.valueError, pkKwargsMsg⟩
      ∧ replace_item item serdeParse loads rbackend (.text s) kwargs
          = .error ⟨.valueError, pkKwargsMsg⟩
      ∧ PyErrKind.valueError ≠ PyErrKind.typeError := by
  intro serdeParse loads backend rbackend item s kwargs j hkw hserde
  refine ⟨?_, ?_, ?_, by decide⟩ <;>
    simp [create_item, upsert_item, replace_item, create_item_request,
      upsert_item_request, replace_item_request, py_object_to_json, hserde,
      extract_partition_key_from_kwargs, hkw, Bind.bind, Except.bind]

/-- Witness for C4: concrete raw-text create with parsable text and empty
kwargs fails with the resolution value error. -/
theorem c4_raw_text_requires_kwargs_witness :
    create_item (fun _ => .ok Json.null) (fun _ => .ok PyValue.none)
        (fun _ => .ok Json.null) (.text "raw") Option.none
      = .error ⟨.valueError, pkKwargsMsg⟩ :=
  (c4_raw_text_requires_kwargs (fun _ => .ok Json.null) (fun _ => .ok PyValue.none)
    (fun _ => .ok Json.null) (fun _ _ => .ok Json.null) "x" "raw" Option.none
    Json.null rfl rfl).1

/-- Counterexample to claim C5: a host boolean is not text, not an integer
variant source and not a float, yet coercion does not fail with a type
error: the host treats bool as an integer subtype, so the i64 extraction
succeeds and yields the Integer variant 1. -/
theorem c5_counterexample :
    python_to_partition_key (PyValue.bool true) = .ok (.int 1)
    ∧ (python_to_partition_key (PyValue.bool true)).isOk = true :=
  ⟨rfl, rfl⟩

/-- Claim C5 as amended: coercion tries text, then signed 64-bit integer,
then double, in that order, yielding the matching variant; a host bool
coerces to the Integer variant (1 or 0), an integer beyond the signed
64-bit range but below the double overflow bound coerces to the Real
variant, an integer at or beyond the double overflow bound fails; every
input of any other type fails with the fixed TypeError-class message, a
kind distinct from the ValueError-class resolution failure. -/
theorem c5_amended_coercion :
    (∀ s, python_to_partition_key (.str s) = .ok (.text s))
    ∧ (∀ n : Int, i64Min ≤ n → n ≤ i64Max →
        python_to_partition_key (.int n) = .ok (.int n))
    ∧ (∀ n : Int, (n < i64Min ∨ i64Max < n) → n.natAbs < f64OverflowBound →
        python_to_partition_key (.int n) = .ok (.real n))
    ∧ (∀ n : Int, f64OverflowBound ≤ n.natAbs →
        python_to_partition_key (.int n) = .error ⟨.typeError, pkTypeMsg⟩)
    ∧ (∀ b, python_to_partition_key (.bool b) = .ok (.int (if b then 1 else 0)))
    ∧ (∀ r, python_to_partition_key (.real r) = .ok (.real r))
    ∧ python_to_partition_key PyValue.none = .error ⟨.typeError, pkTypeMsg⟩
    ∧ (∀ xs, python_to_partition_key (.list xs) = .error ⟨.typeError, pkTypeMsg⟩)
    ∧ (∀ fs, python_to_partition_key (.dict fs) = .error ⟨.typeError, pkTypeMsg⟩)
    ∧ PyErrKind.typeError ≠ PyErrKind.valueError := by
  refine ⟨fun s => rfl, ?_, ?_, ?_, fun b => rfl, fun r => rfl, rfl,
    fun xs => rfl, fun fs => rfl, by decide⟩
  · intro n h1 h2
    simp [python_to_partition_key, extractString, extractI64, h1, h2]
  · intro n hrange habs
    have hni : ¬(i64Min ≤ n ∧ n ≤ i64Max) := by
      rcases hrange with h | h
      · exact fun hc => absurd hc.1 (not_le.mpr h)
      · exact fun hc => absurd hc.2 (not_le.mpr h)
    simp [python_to_partition_key, extractString, extractI64, extractF64, hni, habs]
  · intro n habs
    have hbig := @pow_lt_f64OverflowBound 63 (by norm_num)
    have h63n : ((2 : Nat) ^ 63) = 9223372036854775808 := by norm_num
    have hni : ¬(i64Min ≤ n ∧ n ≤ i64Max) := by
      intro hc
      have h63 : ((2 : Int) ^ 63) = 9223372036854775808 := by norm_num
      have hc2 : -(9223372036854775808 : Int) ≤ n ∧ n ≤ 9223372036854775808 - 1 := by
        simp only [i64Min, i64Max, h63] at hc
        exact hc
      omega
    have hnf : ¬(n.natAbs < f64OverflowBound) := not_lt.mpr habs
    simp [python_to_partition_key, extractString, extractI64, extractF64, hni, hnf]

/-- Witness for C5 as amended: a small integer keeps the Integer variant, an
integer just beyond the 64-bit range becomes the Real variant, and a
1100-bit integer fails the coercion. -/
theorem c5_amended_coercion_witness :
    python_to_partition_key (PyValue.int 5) = .ok (.int 5)
    ∧ python_to_partition_key (PyValue.int (2 ^ 64)) = .ok (.real (2 ^ 64))
    ∧ python_to_partition_key (PyValue.int (2 ^ 1100))
        = .error ⟨.typeError, pkTypeMsg⟩ :=
  ⟨c5_amended_coercion.2.1 5 (by norm_num [i64Min]) (by norm_num [i64Max]),
   c5_amended_coercion.2.2.1 (2 ^ 64) (Or.inr (by norm_num [i64Max]))
     (by
       have h1 : ((2 : Int) ^ 64).natAbs = 2 ^ 64 := by simp [Int.natAbs_pow]
       rw [h1]
       exact @pow_lt_f64OverflowBound 64 (by norm_num)),
   c5_amended_coercion.2.2.2.1 (2 ^ 1100)
     (by
       have h1 : ((2 : Int) ^ 1100).natAbs = 2 ^ 1100 := by simp [Int.natAbs_pow]
       rw [h1]
       have h2 : (2 : Nat) ^ 1024 ≤ 2 ^ 1100 := Nat.pow_le_pow_right (by norm_num) (by norm_num)
       exact le_trans f64OverflowBound_le_pow1024 h2)⟩

/-- Claim C6: a query call whose kwargs carry no partition_key fails with the
value error whose message announces cross-partition support in a future
update, whatever the backend query capability would answer (the error is
raised before any backend query is issued). -/
theorem c6_query_requires_partition_key :
    ∀ (queryBackend : String → PartitionKey → Except PyErr (List (Except PyErr Json)))
      (query : String) (kwargs : Option PyFields),
      kwargsPartitionKey kwargs = Option.none →
      query_items queryBackend query kwargs = .error ⟨.valueError, queryPkRequiredMsg⟩ := by
  intro queryBackend query kwargs hkw
  simp [query_items, hkw, Bind.bind, Except.bind, Pure.pure, Except.pure]

/-- Witness for C6: the concrete query with empty kwargs fails with the
future-update value error for any fixed backend. -/
theorem c6_query_requires_partition_key_witness :
    query_items (fun _ _ => .ok []) "SELECT * FROM c" Option.none
      = .error ⟨.valueError, queryPkRequiredMsg⟩ :=
  c6_query_requires_partition_key (fun _ _ => .ok []) "SELECT * FROM c" Option.none rfl

/-- Claim C7: patch_item fails with the NotImplementedError-class signal for
every container and every combination of arguments, a kind distinct from the
value-error and type-error kinds; it never succeeds and never no-ops. -/
theorem c7_patch_unsupported :
    ∀ (item : String) (partition_key : PyValue) (patch_operations : List PyValue)
      (kwargs : Option PyFields),
      patch_item item partition_key patch_operations kwargs
        = .error ⟨.notImplementedError, patchNotImplementedMsg⟩
      ∧ PyErrKind.notImplementedError ≠ PyErrKind.valueError
      ∧ PyErrKind.notImplementedError ≠ PyErrKind.typeError := by
  intro item partition_key patch_operations kwargs
  exact ⟨rfl, by decide, by decide⟩

/-- Counterexample to claim C8: not every public operation submits its work
to one same executor — the database-level operations of client.rs call
block_on on the runtime static of client.rs while the item operations of
container.rs call block_on on the separate runtime static of container.rs,
so two executors exist once both modules have run an operation. -/
theorem c8_counterexample :
    blockOnRuntime PublicOp.createDatabase ≠ blockOnRuntime PublicOp.createItem := by
  decide

/-- Claim C8 as amended: the client module and the container module each hold
their own process-wide lazily-initialized executor; each cell is constructed
at most once on first use and never re-initialized (a forced cell is stable
under further forcing); every public operation uses one of these two cells,
the database-level operations the client one and the container item
operations the container one. -/
theorem c8_amended_two_runtimes :
    (∀ op, blockOnRuntime op = RuntimeCell.clientRuntime
      ∨ blockOnRuntime op = RuntimeCell.containerRuntime)
    ∧ RuntimeCell.clientRuntime ≠ RuntimeCell.containerRuntime
    ∧ (∀ (α : Type) (init : Unit → α) (c : LazyCell α),
        ((c.force init).1.force init) = c.force init)
    ∧ (∀ (α : Type) (init : Unit → α) (v : α),
        (LazyCell.mk (some v)).force init = (LazyCell.mk (some v), v))
    ∧ blockOnRuntime PublicOp.createDatabase = RuntimeCell.clientRuntime
    ∧ blockOnRuntime PublicOp.deleteDatabase = RuntimeCell.clientRuntime
    ∧ blockOnRuntime PublicOp.listDatabases = RuntimeCell.clientRuntime
    ∧ blockOnRuntime PublicOp.createItem = RuntimeCell.containerRuntime
    ∧ blockOnRuntime PublicOp.queryItems = RuntimeCell.containerRuntime := by
  refine ⟨?_, by decide, ?_, ?_, rfl, rfl, rfl, rfl, rfl⟩
  · intro op
    cases op <;> simp [blockOnRuntime]
  · intro α init c
    rcases c with ⟨cached⟩
    cases cached <;> rfl
  · intro α init v
    rfl

/-- Counterexample to claim C9: the marshaler accepts the mapping holding
the integer 2^64 — the wire parser, whose exact integer range ends at
u64Max, re-parses the emitted literal as a double — yet the round trip then
returns a float in place of the integer, structurally different from the
original mapping. -/
theorem c9_counterexample :
    py_dict_to_json (PyFields.cons "x" (PyValue.int (2 ^ 64)) PyFields.nil)
        = .ok (Json.obj (JsonFields.cons "x" (Json.real (2 ^ 64)) JsonFields.nil))
    ∧ json_to_py_dict (Json.obj (JsonFields.cons "x" (Json.real (2 ^ 64)) JsonFields.nil))
        = PyValue.dict (PyFields.cons "x" (PyValue.real (2 ^ 64)) PyFields.nil)
    ∧ PyValue.dict (PyFields.cons "x" (PyValue.real (2 ^ 64)) PyFields.nil)
        ≠ PyValue.dict (PyFields.cons "x" (PyValue.int (2 ^ 64)) PyFields.nil) := by
  refine ⟨?_, by simp [json_to_py_dict, jsonToPyValue, jsonFieldsToPy], by decide⟩
  have h1 : ¬((18446744073709551616 : Int) ≤ u64Max) := by norm_num [u64Max]
  have h2 : i64Min ≤ (18446744073709551616 : Int) := by norm_num [i64Min]
  have h3 : (18446744073709551616 : Nat) < f64OverflowBound := by
    have h4 : (18446744073709551616 : Nat) = 2 ^ 64 := by norm_num
    rw [h4]
    exact @pow_lt_f64OverflowBound 64 (by norm_num)
  simp [py_dict_to_json, pyFieldsMarshal, pyValueMarshal, h1, h2, h3,
    Bind.bind, Except.bind, Pure.pure, Except.pure, Except.map]

/-- Claim C9 as amended: for every structured host value the marshaler
accepts whose integers all lie within the exact wire integer range (i64Min
to u64Max), converting to the wire document and back yields the original
mapping; an accepted integer outside that range comes back as a float in
its place, and an integer at or beyond the double overflow bound is
rejected by the marshaler. -/
theorem c9_amended_marshal_roundtrip :
    ∀ d : PyFields, pyFieldsWireExact d = true →
      (py_dict_to_json d).map json_to_py_dict = .ok (PyValue.dict d) := by
  intro d h
  have ih := marshalRoundtripFields d h
  cases hm : pyFieldsMarshal d with
  | error e => rw [hm] at ih; exact absurd ih (by simp [Except.map])
  | ok w =>
    rw [hm] at ih
    simp only [Except.map, Except.ok.injEq] at ih
    simp [py_dict_to_json, hm, Except.map, json_to_py_dict, jsonToPyValue, ih]

/-- Witness for C9 as amended: the scenario body is wire-exact and round
trips to itself. -/
theorem c9_amended_marshal_roundtrip_witness :
    (py_dict_to_json scenarioBody).map json_to_py_dict = .ok (PyValue.dict scenarioBody) :=
  c9_amended_marshal_roundtrip scenarioBody (by decide)

/-- Claim C10: a successful list_databases call returns one mapping per
backend stream item, in emission order, each mapping holding the single key
id whose value is the Debug rendering of the whole backend item. -/
theorem c10_list_databases_debug_id :
    ∀ (α : Type) (debugFmt : α → String) (items : List α) (kwargs : Option PyFields),
      list_databases debugFmt (fun _ => .ok (items.map Except.ok)) kwargs
        = .ok (items.map fun db =>
            PyFields.cons "id" (PyValue.str (debugFmt db)) PyFields.nil) := by
  intro α debugFmt items kwargs
  simp [list_databases, drainStream_map_ok, Bind.bind, Except.bind, Pure.pure, Except.pure]

end CosmosSDK
